import Mathlib

/-!
Verification of the client-side authentication / route-protection mechanism
of the IngresoUNAM frontend (`src/App.js`), as a shallow embedding in Lean.

The embedding models:
* the Session Store (browser `localStorage` keys `user`, `isAuthenticated`,
  `token`, each an optional string; `getItem` returns the string or null);
* the backend oracle (the outcome of each possible `fetch` to
  `GET {API}/auth/me`: success with a parsed user record, non-ok HTTP
  status, or a thrown network/parse error);
* `checkAuth` (the effect body of `ProtectedRoute`, lines 41-88), with an
  explicit trace of the network calls it makes and of the `setItem`
  writes it performs;
* the render function of `ProtectedRoute` (lines 90-111);
* the route table of `AppRouter` (lines 126-148) and the `AdminRoutes`
  wrapper (lines 115-121).

JavaScript truthiness of a `localStorage.getItem` result (null or a
string) is captured by `jsTruthy`: null and the empty string are falsy,
every other string is truthy.
-/

/-- A user record as returned by `GET {API}/auth/me` (`response.json()`).
Only the fields the guard inspects are modelled; each may be absent in the
JSON, hence `Option`.  The guard reads only `role` (line 102, via optional
chaining `authState.user?.role`). -/
structure User where
  id : Option String
  email : Option String
  role : Option String
deriving Repr, DecidableEq

/-- The Session Store: the three `localStorage` keys the guard reads.
`getItem` returns the stored string or null, hence `Option String`. -/
structure Store where
  user : Option String
  isAuthenticated : Option String
  token : Option String
deriving Repr, DecidableEq

/-- JavaScript truthiness of a `localStorage.getItem` result: null is
falsy, the empty string is falsy, any other string is truthy. -/
def jsTruthy : Option String → Bool
  | none => false
  | some s => s != ""

/-- A JavaScript exception value (as thrown by `fetch` or `response.json()`). -/
abbrev JsError := String

/-- Outcome of one `fetch` to `{API}/auth/me` together with the subsequent
`response.json()`: `ok u` is a 2xx response whose body parses to `u`;
`httpFail st` is a non-ok HTTP status `st` (the `response.ok` test fails,
no exception); `netError e` is a rejected fetch or a throwing `json()`
(an exception `e` propagates into the enclosing `try`). -/
inductive FetchOutcome where
  | ok (u : User)
  | httpFail (status : Nat)
  | netError (e : JsError)
deriving Repr, DecidableEq

/-- The backend, as an oracle fixing the outcome of each of the two network
attempts `checkAuth` can make: the cookie-based attempt (lines 49-54,
`credentials: "include"` plus a bearer header) and the bearer-token-only
attempt (lines 70-72). -/
structure Oracle where
  cookieVerify : FetchOutcome
  tokenVerify : FetchOutcome
deriving Repr, DecidableEq

/-- The two kinds of network call `checkAuth` can make, in trace order. -/
inductive CallKind where
  | cookieCall
  | tokenCall
deriving Repr, DecidableEq

/-- The request each call kind sends: url, whether `credentials: "include"`
is set, and the `Authorization` bearer value (if the header is present). -/
structure NetRequest where
  url : String
  credentialsInclude : Bool
  bearer : Option String
deriving Repr, DecidableEq

/-- The request sent for each call kind, given the Session Store (lines
49-54 and 70-72).  The cookie-based call always carries a bearer header,
`localStorage.getItem("token") || ""`; the token call carries the stored
token. -/
def requestOf (store : Store) : CallKind → NetRequest
  | .cookieCall => ⟨"/api/auth/me", true, some (store.token.getD "")⟩
  | .tokenCall => ⟨"/api/auth/me", false, store.token⟩

/-- The transient per-guard-instance auth state (line 37). -/
structure AuthState where
  loading : Bool
  authenticated : Bool
  user : Option User
deriving Repr, DecidableEq

/-- Initial state of a freshly mounted `ProtectedRoute` (line 37:
`useState({ loading: true, authenticated: false, user: null })`). -/
def initialAuthState : AuthState :=
  { loading := true, authenticated := false, user := none }

/-- Result of one run of `checkAuth`: the state passed to `setAuthState`,
the network calls made (in order), and the `localStorage.setItem` writes
performed (key, value pairs, in order). -/
structure CheckAuthResult where
  state : AuthState
  calls : List CallKind
  writes : List (String × String)
deriving Repr, DecidableEq

/-- One guarded verification attempt: `try { fetch; if (response.ok) json }
catch {}` collapsed to its observable result.  `some u` iff the response
was ok and parsed to `u`; a non-ok status or a caught exception both yield
`none` (control falls through, lines 47-63 and 69-81). -/
def attemptResult : FetchOutcome → Option User
  | .ok u => some u
  | .httpFail _ => none
  | .netError _ => none

/-- Lines 66-84 of `checkAuth`: read `token` from the store; if truthy,
make the bearer-token-only attempt; on success resolve authenticated with
the fetched user, otherwise (or with no token) resolve unauthenticated.
`prior` is the trace of calls already made. -/
def tokenPhase (store : Store) (oracle : Oracle) (prior : List CallKind) :
    CheckAuthResult :=
  if jsTruthy store.token then
    match attemptResult oracle.tokenVerify with
    | some u =>
      ⟨{ loading := false, authenticated := true, user := some u },
        prior ++ [.tokenCall], []⟩
    | none =>
      ⟨{ loading := false, authenticated := false, user := none },
        prior ++ [.tokenCall], []⟩
  else
    ⟨{ loading := false, authenticated := false, user := none }, prior, []⟩

/-- The full `checkAuth` body (lines 41-88): if the stored user is truthy
and `isAuthenticated` is the string `"true"`, attempt cookie-based
verification; on success resolve authenticated immediately (line 58),
otherwise fall through to the token phase. -/
def checkAuth (store : Store) (oracle : Oracle) : CheckAuthResult :=
  if jsTruthy store.user && (store.isAuthenticated == some "true") then
    match attemptResult oracle.cookieVerify with
    | some u =>
      ⟨{ loading := false, authenticated := true, user := some u },
        [.cookieCall], []⟩
    | none => tokenPhase store oracle [.cookieCall]
  else
    tokenPhase store oracle []

/-- A fetch-plus-json step in the exception monad: a thrown error is an
`Except.error` that would propagate if not caught. -/
def fetchAuthMe : FetchOutcome → Except JsError (Option User)
  | .ok u => .ok (some u)
  | .httpFail _ => .ok none
  | .netError e => .error e

/-- The `try { ... } catch (error) { /* silently */ }` wrapper around each
attempt: a thrown error is swallowed and the attempt yields no user. -/
def tryCatchSwallow (body : Except JsError (Option User)) :
    Except JsError (Option User) :=
  match body with
  | .ok r => .ok r
  | .error _ => .ok none

/-- Token phase in the exception monad (lines 66-84), with the `try/catch`
explicit. -/
def tokenPhaseE (store : Store) (oracle : Oracle) (prior : List CallKind) :
    Except JsError CheckAuthResult := do
  if jsTruthy store.token then
    let r ← tryCatchSwallow (fetchAuthMe oracle.tokenVerify)
    match r with
    | some u =>
      return ⟨{ loading := false, authenticated := true, user := some u },
        prior ++ [.tokenCall], []⟩
    | none =>
      return ⟨{ loading := false, authenticated := false, user := none },
        prior ++ [.tokenCall], []⟩
  else
    return ⟨{ loading := false, authenticated := false, user := none },
      prior, []⟩

/-- `checkAuth` in the exception monad (lines 41-88), with both `try/catch`
blocks explicit: any exception not caught would surface as `Except.error`. -/
def checkAuthE (store : Store) (oracle : Oracle) :
    Except JsError CheckAuthResult := do
  if jsTruthy store.user && (store.isAuthenticated == some "true") then
    let r ← tryCatchSwallow (fetchAuthMe oracle.cookieVerify)
    match r with
    | some u =>
      return ⟨{ loading := false, authenticated := true, user := some u },
        [.cookieCall], []⟩
    | none => tokenPhaseE store oracle [.cookieCall]
  else
    tokenPhaseE store oracle []

/-- Embedding of the optional chain `authState.user?.role` (line 102):
null user yields undefined (`none`), a user without a `role` field yields
undefined (`none`), never a thrown error. -/
def optRole : Option User → Option String
  | none => none
  | some u => u.role

/-- What one render of a route element produces. -/
inductive RenderResult where
  | placeholder
  | redirect (target : String) (replace : Bool)
  | childrenWithContext
  | page (name : String)
deriving Repr, DecidableEq

/-- The render body of `ProtectedRoute` (lines 90-111): spinner while
loading; `<Navigate to="/login" replace />` when not authenticated;
`<Navigate to="/dashboard" replace />` when `adminOnly` and the user's
role is not `"admin"`; otherwise the children inside the auth context
(with the feedback affordance). -/
def renderGuard (adminOnly : Bool) (s : AuthState) : RenderResult :=
  if s.loading then .placeholder
  else if !s.authenticated then .redirect "/login" true
  else if adminOnly && (optRole s.user != some "admin") then
    .redirect "/dashboard" true
  else .childrenWithContext

/-- The `setUser` closure exposed through `AuthContext.Provider`
(line 107): `(u) => setAuthState(s => ({ ...s, user: u }))`. -/
def setUserUpdate (u : Option User) (s : AuthState) : AuthState :=
  { s with user := u }

/-- A route element of the `AppRouter` table: a public page, a
route-table-level `<Navigate>` redirect, or a page wrapped in
`ProtectedRoute` (with its `adminOnly` flag). -/
inductive RouteElement where
  | plain (page : String)
  | redirectTo (target : String) (replace : Bool)
  | guarded (adminOnly : Bool) (page : String)
deriving Repr, DecidableEq

/-- The `AdminRoutes` wrapper (lines 115-121): `ProtectedRoute` invoked
with `adminOnly` set, children additionally wrapped in
`AdminDataProvider` (a data context, not part of the gating decision). -/
def AdminRoutes (page : String) : RouteElement :=
  .guarded true page

/-- The route table of `AppRouter` (lines 126-148), in declaration order. -/
def routes : List (String × RouteElement) :=
  [ ("/", .plain "Landing"),
    ("/login", .plain "Login"),
    ("/register", .plain "Register"),
    ("/dashboard", .guarded false "Dashboard"),
    ("/simulators", .redirectTo "/dashboard" true),
    ("/exam/:simulatorId", .guarded false "Exam"),
    ("/results/:attemptId", .guarded false "Results"),
    ("/history", .guarded false "History"),
    ("/subjects", .guarded false "Subjects"),
    ("/subjects/:subjectId", .guarded false "SubjectPractice"),
    ("/plans", .guarded false "Plans"),
    ("/subscription", .guarded false "Subscription"),
    ("/payment/success", .guarded false "PaymentSuccess"),
    ("/payment/cancel", .guarded false "PaymentCancel"),
    ("/admin", AdminRoutes "AdminDashboard"),
    ("/admin/questions", AdminRoutes "AdminQuestions"),
    ("/admin/simulators", AdminRoutes "AdminSimulators"),
    ("/admin/users", AdminRoutes "AdminUsers"),
    ("/admin/reports", AdminRoutes "AdminReports"),
    ("/admin/reading-texts", AdminRoutes "AdminReadingTexts"),
    ("/admin/feedback", AdminRoutes "AdminFeedback") ]

/-- Look a path up in the route table. -/
def routeFor (path : String) : Option RouteElement :=
  (routes.find? (fun r => r.fst == path)).map Prod.snd

/-- Render a route element, given the auth state of its guard instance
(unused for unguarded elements). -/
def renderElement (e : RouteElement) (s : AuthState) : RenderResult :=
  match e with
  | .plain p => .page p
  | .redirectTo t r => .redirect t r
  | .guarded a _ => renderGuard a s

/-- The network calls mounting a route element triggers: only a
`ProtectedRoute` runs `checkAuth`; a plain page or a route-table-level
`<Navigate>` performs no verification. -/
def elementEffectCalls (e : RouteElement) (store : Store) (oracle : Oracle) :
    List CallKind :=
  match e with
  | .guarded _ _ => (checkAuth store oracle).calls
  | _ => []

/-- How a navigation affects a mounted `ProtectedRoute` instance.
`remount` is a navigation that unmounts the old guard element and mounts
a fresh one; `sameInstance` is a navigation where React preserves the
component instance — which it does whenever the element at the tree
position stays the same unkeyed component type, i.e. between any two
guarded routes of the table above, and on same-route param changes. -/
inductive NavKind where
  | remount
  | sameInstance
deriving Repr, DecidableEq

/-- The guard states observed across one navigation, in order: the state
right after the navigation, then the state once the re-run of `checkAuth`
resolves.  Faithful to the source: `loading: true` exists only in the
initial `useState` value (line 37); every `setAuthState` inside
`checkAuth` sets `loading: false` (lines 58, 76, 84); and the
`useEffect` keyed on `location` (line 88) re-runs `checkAuth` without
resetting the state.  So a remount starts from `initialAuthState`, while
an instance-preserving navigation keeps the previous state `s` until the
new `checkAuth` resolution lands. -/
def stepStates (s : AuthState) (nav : NavKind) (store : Store)
    (oracle : Oracle) : List AuthState :=
  match nav with
  | .remount => [initialAuthState, (checkAuth store oracle).state]
  | .sameInstance => [s, (checkAuth store oracle).state]

/-- An empty Session Store: nothing persisted. -/
def emptyStore : Store := ⟨none, none, none⟩

/-- A fully populated Session Store. -/
def fullStore : Store := ⟨some "u", some "true", some "tok"⟩

/-- A sample non-admin user record. -/
def sampleUser : User := ⟨some "1", some "u@example.com", some "user"⟩

/-- An oracle on which both verification attempts fail (network error on
the cookie attempt, HTTP 401 on the token attempt). -/
def failOracle : Oracle := ⟨.netError "down", .httpFail 401⟩

/-- An oracle on which the cookie-based attempt succeeds. -/
def okCookieOracle : Oracle := ⟨.ok sampleUser, .httpFail 401⟩

/-- A resolved (loading complete) authenticated sample state. -/
def resolvedState : AuthState :=
  { loading := false, authenticated := true, user := some sampleUser }

/-! ### Helper lemmas -/

/-- Every branch of `tokenPhase` resolves loading to false. -/
theorem tokenPhase_loading_false (store : Store) (oracle : Oracle)
    (prior : List CallKind) :
    (tokenPhase store oracle prior).state.loading = false := by
  unfold tokenPhase
  split
  · cases attemptResult oracle.tokenVerify <;> simp
  · rfl

/-- Every branch of `checkAuth` resolves loading to false. -/
theorem checkAuth_loading_false (store : Store) (oracle : Oracle) :
    (checkAuth store oracle).state.loading = false := by
  unfold checkAuth
  split
  · cases attemptResult oracle.cookieVerify <;>
      simp [tokenPhase_loading_false]
  · exact tokenPhase_loading_false store oracle []

/-- `tokenPhase` performs no store writes. -/
theorem tokenPhase_writes_nil (store : Store) (oracle : Oracle)
    (prior : List CallKind) :
    (tokenPhase store oracle prior).writes = [] := by
  unfold tokenPhase
  split
  · cases attemptResult oracle.tokenVerify <;> simp
  · rfl

/-- Once loading is false, the guard renders exactly one of the three
decided outcomes (the outcomes are distinct constructor values, so at most
one equality can hold; the disjunction shows at least one does). -/
theorem renderGuard_decided (adminOnly : Bool) (s : AuthState)
    (h : s.loading = false) :
    renderGuard adminOnly s = .redirect "/login" true
    ∨ renderGuard adminOnly s = .redirect "/dashboard" true
    ∨ renderGuard adminOnly s = .childrenWithContext := by
  unfold renderGuard
  rw [h]
  cases hauth : s.authenticated
  · simp
  · cases hrole : adminOnly && (optRole s.user != some "admin") <;> simp [hrole]

/-! ### Claim theorems -/

/-- C1: whenever verification has resolved unauthenticated (loading false,
authenticated false), the guard renders `<Navigate to="/login" replace />`
— a replace redirect to `/login` — and does not render the protected
children, for every `adminOnly` flag and every residual user value. -/
theorem c1_unauthenticated_redirects_to_login :
    ∀ (adminOnly : Bool) (u : Option User),
      renderGuard adminOnly
          { loading := false, authenticated := false, user := u }
        = .redirect "/login" true
      ∧ renderGuard adminOnly
          { loading := false, authenticated := false, user := u }
        ≠ .childrenWithContext := by
  intro a u
  constructor <;> simp [renderGuard]

/-- C1 witness: the unauthenticated resolution of an empty store yields
the login redirect at a concrete state. -/
theorem c1_witness :
    renderGuard false
        { loading := false, authenticated := false, user := none }
      = .redirect "/login" true
    ∧ renderGuard false
        { loading := false, authenticated := false, user := none }
      ≠ .childrenWithContext :=
  c1_unauthenticated_redirects_to_login false none

/-- C9: the `setUser` closure exposed through the auth context updates only
the `user` field: loading and authenticated are unchanged. -/
theorem c9_setUser_updates_only_user :
    ∀ (u : Option User) (s : AuthState),
      (setUserUpdate u s).user = u
      ∧ (setUserUpdate u s).loading = s.loading
      ∧ (setUserUpdate u s).authenticated = s.authenticated := by
  intro u s
  exact ⟨rfl, rfl, rfl⟩

/-- C2: every admin-gated route invokes the guard with `adminOnly` set
(the `AdminRoutes` wrapper, and every `/admin*` table entry goes through
it), and when the guard has resolved authenticated but the verified user's
role is not `"admin"`, it renders `<Navigate to="/dashboard" replace />`
and does not render the admin children. -/
theorem c2_nonadmin_redirects_to_dashboard :
    (∀ page, AdminRoutes page = RouteElement.guarded true page)
    ∧ (routeFor "/admin" = some (RouteElement.guarded true "AdminDashboard")
       ∧ routeFor "/admin/questions"
           = some (RouteElement.guarded true "AdminQuestions")
       ∧ routeFor "/admin/simulators"
           = some (RouteElement.guarded true "AdminSimulators")
       ∧ routeFor "/admin/users" = some (RouteElement.guarded true "AdminUsers")
       ∧ routeFor "/admin/reports"
           = some (RouteElement.guarded true "AdminReports")
       ∧ routeFor "/admin/reading-texts"
           = some (RouteElement.guarded true "AdminReadingTexts")
       ∧ routeFor "/admin/feedback"
           = some (RouteElement.guarded true "AdminFeedback"))
    ∧ (∀ (u : Option User), optRole u ≠ some "admin" →
        renderGuard true { loading := false, authenticated := true, user := u }
          = .redirect "/dashboard" true
        ∧ renderGuard true { loading := false, authenticated := true, user := u }
          ≠ .childrenWithContext) := by
  refine ⟨fun _ => rfl, by decide, ?_⟩
  intro u h
  have hb : (optRole u != some "admin") = true := bne_iff_ne.mpr h
  constructor <;> simp [renderGuard, hb]

/-- C2 witness: a non-admin user (`role = "user"`) on an admin route is
sent to `/dashboard`. -/
theorem c2_witness :
    optRole (some ⟨none, none, some "user"⟩) ≠ some "admin"
    ∧ renderGuard true
        { loading := false, authenticated := true,
          user := some ⟨none, none, some "user"⟩ }
      = .redirect "/dashboard" true :=
  ⟨by decide,
    (c2_nonadmin_redirects_to_dashboard.2.2
      (some ⟨none, none, some "user"⟩) (by decide)).1⟩

/-- C10: the optional-chained role access is total — a null user or a user
record with no `role` field evaluates to no role (never a thrown error) —
and in every such case (as for any role other than `"admin"`) the guard in
authenticated state with `adminOnly` redirects to `/dashboard` rather than
crashing. -/
theorem c10_role_access_total :
    optRole none = none
    ∧ (∀ (i e : Option String), optRole (some ⟨i, e, none⟩) = none)
    ∧ (∀ (u : Option User), optRole u ≠ some "admin" →
        renderGuard true { loading := false, authenticated := true, user := u }
          = .redirect "/dashboard" true) := by
  refine ⟨rfl, fun _ _ => rfl, ?_⟩
  intro u h
  have hb : (optRole u != some "admin") = true := bne_iff_ne.mpr h
  simp [renderGuard, hb]

/-- C10 witness: a null user under `adminOnly` yields the `/dashboard`
redirect. -/
theorem c10_witness :
    optRole none ≠ some "admin"
    ∧ renderGuard true { loading := false, authenticated := true, user := none }
      = .redirect "/dashboard" true :=
  ⟨by decide, c10_role_access_total.2.2 none (by decide)⟩

/-- C6: `/simulators` is declared in the route table as a route-level
`<Navigate to="/dashboard" replace />`: it renders the replace-redirect
for every auth state, and mounting it triggers no verification network
call (the element is not wrapped in `ProtectedRoute`). -/
theorem c6_simulators_always_redirects :
    routeFor "/simulators" = some (RouteElement.redirectTo "/dashboard" true)
    ∧ (∀ (s : AuthState),
        renderElement (RouteElement.redirectTo "/dashboard" true) s
          = .redirect "/dashboard" true)
    ∧ (∀ (store : Store) (oracle : Oracle),
        elementEffectCalls (RouteElement.redirectTo "/dashboard" true)
          store oracle = []) := by
  exact ⟨by decide, fun _ => rfl, fun _ _ => rfl⟩

/-- C3: with neither the stored-session pair (truthy `user` plus
`isAuthenticated = "true"`) nor a truthy `token` present, `checkAuth`
makes zero network calls and resolves unauthenticated. -/
theorem c3_no_credentials_short_circuit :
    ∀ (store : Store) (oracle : Oracle),
      ¬(jsTruthy store.user = true ∧ store.isAuthenticated = some "true") →
      jsTruthy store.token = false →
      checkAuth store oracle
        = ⟨{ loading := false, authenticated := false, user := none },
            [], []⟩ := by
  intro store oracle h1 h2
  have hcond :
      (jsTruthy store.user && (store.isAuthenticated == some "true"))
        = false := by
    cases hu : jsTruthy store.user
    · simp
    · have hne : store.isAuthenticated ≠ some "true" := fun hc => h1 ⟨hu, hc⟩
      simp [hne]
  unfold checkAuth tokenPhase
  rw [hcond, h2]
  simp

/-- C3 witness: an empty store resolves unauthenticated with an empty call
trace, on any oracle. -/
theorem c3_witness :
    jsTruthy emptyStore.token = false
    ∧ checkAuth emptyStore failOracle
      = ⟨{ loading := false, authenticated := false, user := none },
          [], []⟩ :=
  ⟨by decide,
    c3_no_credentials_short_circuit emptyStore failOracle
      (by decide) (by decide)⟩

/-- The calls of `tokenPhase` extend the prior trace by at most the token
call. -/
theorem tokenPhase_calls (store : Store) (oracle : Oracle)
    (prior : List CallKind) :
    (tokenPhase store oracle prior).calls = prior
    ∨ (tokenPhase store oracle prior).calls
        = prior ++ [CallKind.tokenCall] := by
  unfold tokenPhase
  split
  · cases attemptResult oracle.tokenVerify <;> simp
  · simp

/-- The call trace of `checkAuth` is one of the four ordered possibilities. -/
theorem checkAuth_calls_shape (store : Store) (oracle : Oracle) :
    (checkAuth store oracle).calls = []
    ∨ (checkAuth store oracle).calls = [CallKind.cookieCall]
    ∨ (checkAuth store oracle).calls = [CallKind.tokenCall]
    ∨ (checkAuth store oracle).calls
        = [CallKind.cookieCall, CallKind.tokenCall] := by
  unfold checkAuth
  cases hc : (jsTruthy store.user && (store.isAuthenticated == some "true"))
  · rcases tokenPhase_calls store oracle [] with h | h <;> simp [h]
  · cases ha : attemptResult oracle.cookieVerify
    · rcases tokenPhase_calls store oracle [CallKind.cookieCall] with h | h <;>
        simp [h]
    · simp

/-- C4: the verification attempts happen in the fixed order (session-flag
check, then cookie attempt, then token attempt): the trace is one of `[]`,
`[cookie]`, `[token]`, `[cookie, token]` (so at most two round trips,
awaited one after the other as a trace of sequential calls); a successful
cookie attempt, when it is made, ends the run with no token call; the
cookie request forwards credentials with a bearer header and the token
request carries only the stored bearer token. -/
theorem c4_verification_order :
    ∀ (store : Store) (oracle : Oracle),
      ((checkAuth store oracle).calls = []
        ∨ (checkAuth store oracle).calls = [CallKind.cookieCall]
        ∨ (checkAuth store oracle).calls = [CallKind.tokenCall]
        ∨ (checkAuth store oracle).calls
            = [CallKind.cookieCall, CallKind.tokenCall])
      ∧ (checkAuth store oracle).calls.length ≤ 2
      ∧ (∀ u, oracle.cookieVerify = FetchOutcome.ok u →
          CallKind.cookieCall ∈ (checkAuth store oracle).calls →
          (checkAuth store oracle).calls = [CallKind.cookieCall])
      ∧ requestOf store CallKind.cookieCall
          = ⟨"/api/auth/me", true, some (store.token.getD "")⟩
      ∧ requestOf store CallKind.tokenCall
          = ⟨"/api/auth/me", false, store.token⟩ := by
  intro store oracle
  refine ⟨checkAuth_calls_shape store oracle, ?_, ?_, rfl, rfl⟩
  · rcases checkAuth_calls_shape store oracle with h | h | h | h <;> simp [h]
  · intro u hu hmem
    have ha : attemptResult oracle.cookieVerify = some u := by
      rw [hu]; rfl
    revert hmem
    unfold checkAuth
    cases hc : (jsTruthy store.user && (store.isAuthenticated == some "true"))
    · intro hmem
      exfalso
      rcases tokenPhase_calls store oracle [] with h | h <;>
        simp [h] at hmem
    · rw [ha]
      intro _
      rfl

/-- C4 witness: with a full store and a successful cookie attempt, the
trace is exactly the cookie call. -/
theorem c4_witness :
    okCookieOracle.cookieVerify = FetchOutcome.ok sampleUser
    ∧ CallKind.cookieCall ∈ (checkAuth fullStore okCookieOracle).calls
    ∧ (checkAuth fullStore okCookieOracle).calls = [CallKind.cookieCall] :=
  ⟨by decide, by decide,
    (c4_verification_order fullStore okCookieOracle).2.2.1 sampleUser
      (by decide) (by decide)⟩

/-- C5 counterexample: an instance-preserving navigation from an already
resolved authenticated state does not re-enter Loading.  The observed
state sequence is two copies of the resolved state — `loading: true`
exists only in the initial `useState` value and nothing in the
location-keyed effect resets it — so the Loading state never occurs in
the sequence, refuting "re-enters Loading on every navigation". -/
theorem c5_counterexample :
    stepStates resolvedState NavKind.sameInstance fullStore okCookieOracle
      = [resolvedState, resolvedState]
    ∧ initialAuthState
        ∉ stepStates resolvedState NavKind.sameInstance fullStore
            okCookieOracle := by
  constructor <;> decide

/-- C5 (amended): the guard starts in Loading on mount (the initial
`useState` value), renders the neutral placeholder — no redirect — while
loading, and `checkAuth` always resolves loading to false, after which
exactly one of redirect-to-login, redirect-to-dashboard or
render-children applies (the three outcomes are distinct constructor
values, so the disjunction is exclusive).  Every navigation re-runs the
full verification (both navigation kinds end at the `checkAuth`
resolution), but Loading is re-entered only on a remount: an
instance-preserving navigation keeps the previously decided state, and if
that state had loading false, no state of the navigation is Loading. -/
theorem c5_loading_per_mount :
    ∀ (store : Store) (oracle : Oracle) (adminOnly : Bool) (s : AuthState),
      initialAuthState.loading = true
      ∧ renderGuard adminOnly initialAuthState = .placeholder
      ∧ (stepStates s NavKind.remount store oracle).head?
          = some initialAuthState
      ∧ (stepStates s NavKind.sameInstance store oracle).head? = some s
      ∧ (∀ nav, (stepStates s nav store oracle).getLast?
          = some (checkAuth store oracle).state)
      ∧ (checkAuth store oracle).state.loading = false
      ∧ (s.loading = false →
          ∀ t ∈ stepStates s NavKind.sameInstance store oracle,
            t.loading = false)
      ∧ (renderGuard adminOnly (checkAuth store oracle).state
            = .redirect "/login" true
         ∨ renderGuard adminOnly (checkAuth store oracle).state
            = .redirect "/dashboard" true
         ∨ renderGuard adminOnly (checkAuth store oracle).state
            = .childrenWithContext) := by
  intro store oracle a s
  refine ⟨rfl, rfl, rfl, rfl, ?_, checkAuth_loading_false store oracle, ?_,
    renderGuard_decided a _ (checkAuth_loading_false store oracle)⟩
  · intro nav
    cases nav <;> rfl
  · intro h t ht
    simp only [stepStates, List.mem_cons, List.not_mem_nil, or_false] at ht
    rcases ht with rfl | rfl
    · exact h
    · exact checkAuth_loading_false store oracle

/-- C5 witness: a concrete instance-preserving navigation from a resolved
state has loading false at a concrete member of its state sequence. -/
theorem c5_witness_amended :
    resolvedState
      ∈ stepStates resolvedState NavKind.sameInstance fullStore
          okCookieOracle
    ∧ resolvedState.loading = false :=
  ⟨by decide,
    (c5_loading_per_mount fullStore okCookieOracle false
        resolvedState).2.2.2.2.2.2.1
      (by decide) resolvedState (by decide)⟩

/-- C7: `checkAuthE` — the same procedure with the two `try/catch` blocks
made explicit in the exception monad — never surfaces an error to its
caller (it always agrees with the total `checkAuth`), and whenever both
attempts fail (non-ok HTTP status or thrown network error alike),
`checkAuth` resolves unauthenticated instead of crashing. -/
theorem c7_auth_errors_swallowed :
    ∀ (store : Store) (oracle : Oracle),
      checkAuthE store oracle = Except.ok (checkAuth store oracle)
      ∧ (attemptResult oracle.cookieVerify = none →
         attemptResult oracle.tokenVerify = none →
         (checkAuth store oracle).state
           = { loading := false, authenticated := false, user := none }) := by
  intro store oracle
  constructor
  · unfold checkAuthE checkAuth tokenPhaseE tokenPhase
    cases hc : oracle.cookieVerify <;>
      cases ht : oracle.tokenVerify <;>
        cases h1 :
            (jsTruthy store.user && (store.isAuthenticated == some "true")) <;>
          cases h2 : jsTruthy store.token <;>
            simp [tryCatchSwallow, fetchAuthMe, attemptResult, Except.bind,
              bind, pure, Except.pure]
  · intro hc ht
    unfold checkAuth tokenPhase
    cases h1 :
        (jsTruthy store.user && (store.isAuthenticated == some "true")) <;>
      cases h2 : jsTruthy store.token <;>
        simp [hc, ht]

/-- C7 witness: network error on the cookie attempt and HTTP failure on
the token attempt are swallowed and resolve unauthenticated. -/
theorem c7_witness :
    checkAuthE fullStore failOracle
      = Except.ok (checkAuth fullStore failOracle)
    ∧ (checkAuth fullStore failOracle).state
      = { loading := false, authenticated := false, user := none } :=
  ⟨(c7_auth_errors_swallowed fullStore failOracle).1,
    (c7_auth_errors_swallowed fullStore failOracle).2
      (by decide) (by decide)⟩

/-- C8: `checkAuth` performs no `localStorage.setItem` at all — in
particular no redundant re-write of the Session Store on success (the
"only when fresher" carve-out holds vacuously) — and on any successful
verification the resolved state is Authenticated carrying exactly the user
record one of the verifier attempts returned. -/
theorem c8_no_redundant_store_writes :
    ∀ (store : Store) (oracle : Oracle),
      (checkAuth store oracle).writes = []
      ∧ ((checkAuth store oracle).state.authenticated = true →
          ∃ u, (attemptResult oracle.cookieVerify = some u
                ∨ attemptResult oracle.tokenVerify = some u)
            ∧ (checkAuth store oracle).state
              = { loading := false, authenticated := true,
                  user := some u }) := by
  intro store oracle
  constructor
  · unfold checkAuth
    split
    · cases attemptResult oracle.cookieVerify <;>
        simp [tokenPhase_writes_nil]
    · exact tokenPhase_writes_nil store oracle []
  · unfold checkAuth tokenPhase
    cases h1 :
        (jsTruthy store.user && (store.isAuthenticated == some "true")) <;>
      cases ha : attemptResult oracle.cookieVerify <;>
        cases h2 : jsTruthy store.token <;>
          cases hb : attemptResult oracle.tokenVerify <;>
            intro hauth <;>
            first
              | exact ⟨_, Or.inl rfl, rfl⟩
              | exact ⟨_, Or.inr rfl, rfl⟩
              | exact absurd hauth (by decide)
              | simp at hauth

/-- C8 witness: a successful cookie verification resolves Authenticated
with the fetched user and writes nothing to the store. -/
theorem c8_witness :
    (checkAuth fullStore okCookieOracle).state.authenticated = true
    ∧ (checkAuth fullStore okCookieOracle).writes = []
    ∧ ∃ u, (attemptResult okCookieOracle.cookieVerify = some u
            ∨ attemptResult okCookieOracle.tokenVerify = some u)
        ∧ (checkAuth fullStore okCookieOracle).state
          = { loading := false, authenticated := true, user := some u } :=
  ⟨by decide, (c8_no_redundant_store_writes fullStore okCookieOracle).1,
    (c8_no_redundant_store_writes fullStore okCookieOracle).2 (by decide)⟩
